import Mathlib

/-!
Shallow embedding of the trace-ingestion core of this repository, centred on
src/src/trace_processor/importers/proto/proto_trace_reader.cc
(ProtoTraceReader::ParsePacket and its helpers).  Decoded protobuf messages
are represented as Lean structures whose fields correspond to the accessors
the C++ code reads; mutable members of the reader and its context
(incremental per-sequence state, stats, the sorter, the clock tracker, the
metadata tracker and the clock-snapshot table) are threaded explicitly as a
state record.  Collaborators whose code is not under src/ (the clock
tracker, the sorter, the sequence-state registry, the descriptor pool) are
modelled from the spec, as marked on each definition.
-/

namespace Perfetto

/-- TracePacket.SequenceFlags.SEQ_INCREMENTAL_STATE_CLEARED.  Modelled from
the spec: the flag bit values come from the TracePacket proto definition,
which is not under src/; the two flags are distinct single bits. -/
def SEQ_INCREMENTAL_STATE_CLEARED : Nat := 1

/-- TracePacket.SequenceFlags.SEQ_NEEDS_INCREMENTAL_STATE (second bit). -/
def SEQ_NEEDS_INCREMENTAL_STATE : Nat := 2

/-- BuiltinClock / ClockSnapshot.Clock id of the MONOTONIC clock.  Modelled
from the spec: builtin clock numbering (REALTIME=1 .. BOOTTIME=6) comes from
the proto definition, not under src/. -/
def BUILTIN_CLOCK_MONOTONIC : Nat := 3

/-- BuiltinClock id of BOOTTIME, the default primary trace clock. -/
def BUILTIN_CLOCK_BOOTTIME : Nat := 6

/-- A byte payload of a length-delimited field (a TraceBlobView in the
source; slicing is represented by the payload bytes themselves). -/
abbrev Blob := List Nat

/-- static_cast of a uint64 value to int64, as done for timestamps and
unit multipliers in ParsePacket / ParseClockSnapshot. -/
def uint64ToInt64 (n : Nat) : Int :=
  let m : Nat := n % 2 ^ 64
  if m < 2 ^ 63 then (m : Int) else (m : Int) - 2 ^ 64

/-- One field of an interned_data submessage as yielded by
protozero::ProtoDecoder::ReadField in ParseInternedData: its field id and
its payload bytes (f.as_bytes(), a slice of the interned_data view). -/
structure InternedField where
  id : Nat
  bytes : Blob
deriving DecidableEq

/-- Decoded view of a TracePacketDefaults submessage; the reader only ever
consults its timestamp_clock_id (0 when the field is absent). -/
structure TracePacketDefaultsMsg where
  timestamp_clock_id : Nat := 0
deriving DecidableEq

/-- Decoded ClockSnapshot.Clock tuple; accessor results with proto defaults
(0 / false) when a field is absent. -/
structure ClockTuple where
  clock_id : Nat
  timestamp : Nat := 0
  unit_multiplier_ns : Nat := 0
  is_incremental : Bool := false
deriving DecidableEq

/-- Decoded ClockSnapshot message. -/
structure ClockSnapshotMsg where
  primary_trace_clock : Nat := 0
  clocks : List ClockTuple := []
deriving DecidableEq

/-- Decoded TracingServiceEvent message (the five flags ParseServiceEvent
reads). -/
structure ServiceEventMsg where
  tracing_started : Bool := false
  tracing_disabled : Bool := false
  all_data_sources_started : Bool := false
  all_data_sources_flushed : Bool := false
  read_tracing_buffers_completed : Bool := false
deriving DecidableEq

/-- Decoded view of one TracePacket, with exactly the accessors
ProtoTraceReader::ParsePacket reads.  An Option field is none when has_X()
is false; Bool fields stand for has_X() of submessages the reader only
tests for presence (chrome_events, chrome_metadata, frame_timeline_event,
trace_config).  bytesLeft is decoder.bytes_left() after the decode;
moduleFields is the set of populated top-level field ids visible to
decoder.Get for module dispatch. -/
structure TracePacket where
  bytesLeft : Nat := 0
  trusted_packet_sequence_id : Option Nat := none
  sequence_flags : Nat := 0
  incremental_state_cleared : Bool := false
  previous_packet_dropped : Bool := false
  trace_packet_defaults : Option TracePacketDefaultsMsg := none
  interned_data : Option (List InternedField) := none
  clock_snapshot : Option ClockSnapshotMsg := none
  service_event : Option ServiceEventMsg := none
  extension_descriptor : Option Blob := none
  timestamp : Option Nat := none
  timestamp_clock_id : Option Nat := none
  chrome_events : Bool := false
  chrome_metadata : Bool := false
  frame_timeline_event : Bool := false
  trace_config : Bool := false
  moduleFields : List Nat := []
deriving DecidableEq

/-- decoder.trusted_packet_sequence_id(): the proto accessor returns 0 when
the field is absent. -/
def TracePacket.seqId (p : TracePacket) : Nat :=
  p.trusted_packet_sequence_id.getD 0

/-- Per-sequence incremental state (PacketSequenceState).  Modelled from the
spec: the registry code is not under src/.  valid is
IsIncrementalStateValid(); defaults is the stored trace-packet-defaults
view; interned records the InternMessage calls (field id, payload view) in
order — the iid-keyed interning table itself is outside the core. -/
structure SequenceState where
  valid : Bool := false
  defaults : Option TracePacketDefaultsMsg := none
  interned : List (Nat × Blob) := []
deriving DecidableEq

/-- Modelled from the spec: OnIncrementalStateCleared marks the sequence
valid, allocates a fresh generation, resets the interned table and the
defaults. -/
def SequenceState.OnIncrementalStateCleared (s : SequenceState) : SequenceState :=
  { s with valid := true, defaults := none, interned := [] }

/-- Modelled from the spec: OnPacketLoss marks the sequence invalid. -/
def SequenceState.OnPacketLoss (s : SequenceState) : SequenceState :=
  { s with valid := false }

/-- Modelled from the spec: UpdateTracePacketDefaults stores the new
defaults view (a new generation inheriting the interned table). -/
def SequenceState.UpdateTracePacketDefaults (s : SequenceState)
    (d : TracePacketDefaultsMsg) : SequenceState :=
  { s with defaults := some d }

/-- Modelled from the spec: InternMessage(field_id, view) inserts the view
into the current generation's interned table; we record the call. -/
def SequenceState.InternMessage (s : SequenceState) (fid : Nat) (b : Blob) :
    SequenceState :=
  { s with interned := s.interned ++ [(fid, b)] }

/-- The stats counters the reader touches (storage/stats.h). -/
structure Stats where
  tokenizer_skipped_packets : Nat := 0
  interned_data_tokenizer_errors : Nat := 0
  frame_timeline_event_parser_errors : Nat := 0
  clock_sync_failure : Nat := 0
deriving DecidableEq

/-- Metadata keys ParseServiceEvent writes through the metadata tracker. -/
inductive MetadataKey where
  | tracing_started_ns
  | tracing_disabled_ns
  | all_data_source_started_ns
deriving DecidableEq

/-- Modelled from the spec: the sorter (C7) is not under src/.  We record
the regular pushes, the running max_timestamp() (largest timestamp ever
pushed), and the two barrier notifications. -/
structure Sorter where
  pushed : List (Int × TracePacket) := []
  maxTs : Int := 0
  flushEvents : Nat := 0
  readBufferEvents : Nat := 0
deriving DecidableEq

/-- ClockTracker::ClockValue as constructed in ParseClockSnapshot. -/
structure ClockValue where
  clock_id : Nat
  absolute_timestamp : Int
  unit_multiplier_ns : Int
  is_incremental : Bool
deriving DecidableEq

/-- One row of the clock-snapshot diagnostics table. -/
structure ClockSnapshotRow where
  ts : Int
  clock_id : Int
  clock_value : Int
  clock_name : Option String
  snapshot_id : Nat
deriving DecidableEq

/-- Modelled from the spec: the clock tracker (C5) is not under src/.
toTraceTimeFn abstracts the snapshot-graph conversion
ToTraceTime(clock_id, value); trace_time_clock is the primary trace clock;
AddSnapshot returns the fresh, monotonically increasing nextSnapshotId and
records the snapshot. -/
structure ClockTracker where
  toTraceTimeFn : Nat → Int → Option Int
  trace_time_clock : Nat := BUILTIN_CLOCK_BOOTTIME
  nextSnapshotId : Nat := 0
  snapshots : List (List ClockValue) := []

/-- Result of a module's TokenizePacket (ModuleResult). -/
inductive ModuleResult where
  | ignored
  | handled
  | err (msg : String)

/-- util::Status. -/
inductive Status where
  | ok
  | err (msg : String)
deriving DecidableEq

/-- ModuleResult::ToStatus (only called on non-ignored results). -/
def ModuleResult.toStatus : ModuleResult → Status
  | ModuleResult.ignored => Status.ok
  | ModuleResult.handled => Status.ok
  | ModuleResult.err m => Status.err m

/-- Modelled from the spec: parser modules live outside the core; a module
is its TokenizePacket entry, deciding from the packet and resolved
timestamp whether to take the packet. -/
abbrev TraceModule := TracePacket → Int → ModuleResult

/-- The mutable state reachable from a ProtoTraceReader: its
latest_timestamp_ member and, through TraceProcessorContext, the
per-sequence incremental states, the stats storage, the sorter, the clock
tracker, the metadata tracker, the clock-snapshot table, the descriptor
pool, and the module dispatch table. -/
structure Ctx where
  seqStates : Nat → SequenceState
  stats : Stats := {}
  latest_timestamp : Int := 0
  sorter : Sorter := {}
  clock_tracker : ClockTracker
  metadata : List (MetadataKey × Int) := []
  clock_snapshot_rows : List ClockSnapshotRow := []
  descriptors : List Blob := []
  modulesSize : Nat := 0
  modulesByField : Nat → List TraceModule := fun _ => []

/-- GetIncrementalStateForPacketSequence mutation: replace the state of one
sequence (creation of a fresh entry is implicit in the total map). -/
def Ctx.updateSeq (ctx : Ctx) (sid : Nat) (f : SequenceState → SequenceState) :
    Ctx :=
  { ctx with seqStates := fun n => if n = sid then f (ctx.seqStates n) else ctx.seqStates n }

/-- IncrementStats(stats::tokenizer_skipped_packets). -/
def incrTokenizerSkipped (ctx : Ctx) : Ctx :=
  { ctx with stats := { ctx.stats with
      tokenizer_skipped_packets := ctx.stats.tokenizer_skipped_packets + 1 } }

/-- IncrementStats(stats::interned_data_tokenizer_errors). -/
def incrInternedErrors (ctx : Ctx) : Ctx :=
  { ctx with stats := { ctx.stats with
      interned_data_tokenizer_errors := ctx.stats.interned_data_tokenizer_errors + 1 } }

/-- IncrementStats(stats::frame_timeline_event_parser_errors). -/
def incrFrameTimelineErrors (ctx : Ctx) : Ctx :=
  { ctx with stats := { ctx.stats with
      frame_timeline_event_parser_errors := ctx.stats.frame_timeline_event_parser_errors + 1 } }

/-- IncrementStats(stats::clock_sync_failure). -/
def incrClockSyncFailure (ctx : Ctx) : Ctx :=
  { ctx with stats := { ctx.stats with
      clock_sync_failure := ctx.stats.clock_sync_failure + 1 } }

/-- Modelled from the spec: ClockTracker::IsReservedSeqScopedClockId — clock
ids 64..128 are sequence-scoped. -/
def IsReservedSeqScopedClockId (cid : Nat) : Bool :=
  decide (64 ≤ cid ∧ cid < 128)

/-- Modelled from the spec: ClockTracker::SeqScopedClockIdToGlobal(seq, id)
= (seq as u64 << 32) | id. -/
def SeqScopedClockIdToGlobal (seq_id cid : Nat) : Nat :=
  (seq_id <<< 32) ||| cid

/-- ClockTracker::ToTraceTime, wrapped with its documented side effect:
modelled from the spec, on conversion failure it returns none and
increments the clock_sync_failure stat. -/
def ToTraceTime (ctx : Ctx) (cid : Nat) (v : Int) : Option Int × Ctx :=
  match ctx.clock_tracker.toTraceTimeFn cid v with
  | some t => (some t, ctx)
  | none => (none, incrClockSyncFailure ctx)

/-- ClockTracker::SetTraceTimeClock.  Modelled from the spec: records the
target domain of conversion. -/
def SetTraceTimeClock (ctx : Ctx) (cid : Nat) : Ctx :=
  { ctx with clock_tracker := { ctx.clock_tracker with trace_time_clock := cid } }

/-- ClockTracker::AddSnapshot.  Modelled from the spec: records the snapshot
and returns a fresh, monotonically increasing snapshot id; its effect on
the conversion graph is abstracted into toTraceTimeFn. -/
def AddSnapshot (ctx : Ctx) (clocks : List ClockValue) : Nat × Ctx :=
  (ctx.clock_tracker.nextSnapshotId,
   { ctx with clock_tracker := { ctx.clock_tracker with
       nextSnapshotId := ctx.clock_tracker.nextSnapshotId + 1,
       snapshots := ctx.clock_tracker.snapshots ++ [clocks] } })

/-- The error message of ParsePacket's trailing-bytes check. -/
def corruptMsg : String :=
  "Failed to parse proto packet fully; the trace is probably corrupt."

/-- The error message of the SEQ_NEEDS_INCREMENTAL_STATE zero-sequence
check. -/
def needsIncrementalSeqZeroMsg : String :=
  "TracePacket specified SEQ_NEEDS_INCREMENTAL_STATE but the TraceWriter's sequence_id is zero (the service is probably too old)"

/-- The error message for a sequence-local timestamp_clock_id with a zero
sequence id. -/
def seqScopedClockSeqZeroMsg (cid : Nat) : String :=
  "TracePacket specified a sequence-local clock id (" ++ toString cid ++
  ") but the TraceWriter's sequence_id is zero (the service is probably too old)"

/-- The error message for a sequence-scoped clock id inside a ClockSnapshot
with a zero sequence id. -/
def clockSnapshotSeqZeroMsg (cid : Nat) : String :=
  "ClockSnapshot packet is specifying a sequence-scoped clock id (" ++
  toString cid ++ ") but the TracePacket sequence_id is zero"

/-- ProtoTraceReader::HandleIncrementalStateCleared.  The per-module
OnIncrementalStateCleared notifications go to external collaborators and
carry no core state. -/
def HandleIncrementalStateCleared (ctx : Ctx) (p : TracePacket) : Ctx :=
  match p.trusted_packet_sequence_id with
  | none => incrInternedErrors ctx
  | some sid => ctx.updateSeq sid SequenceState.OnIncrementalStateCleared

/-- ProtoTraceReader::HandlePreviousPacketDropped. -/
def HandlePreviousPacketDropped (ctx : Ctx) (p : TracePacket) : Ctx :=
  match p.trusted_packet_sequence_id with
  | none => incrInternedErrors ctx
  | some sid => ctx.updateSeq sid SequenceState.OnPacketLoss

/-- ProtoTraceReader::ParseTracePacketDefaults. -/
def ParseTracePacketDefaults (ctx : Ctx) (p : TracePacket)
    (d : TracePacketDefaultsMsg) : Ctx :=
  match p.trusted_packet_sequence_id with
  | none => incrInternedErrors ctx
  | some sid => ctx.updateSeq sid (fun s => s.UpdateTracePacketDefaults d)

/-- ProtoTraceReader::ParseInternedData. -/
def ParseInternedData (ctx : Ctx) (p : TracePacket)
    (fields : List InternedField) : Ctx :=
  match p.trusted_packet_sequence_id with
  | none => incrInternedErrors ctx
  | some sid =>
    if (ctx.seqStates sid).valid = false then incrTokenizerSkipped ctx
    else
      ctx.updateSeq sid (fun s =>
        fields.foldl (fun s f => s.InternMessage f.id f.bytes) s)

/-- Lines 86-111 of ParsePacket: incremental-state-cleared / packet-loss
handling, then defaults, then interned data, in source order. -/
def stateUpdates (ctx : Ctx) (p : TracePacket) : Ctx :=
  let ctx1 :=
    if p.incremental_state_cleared = true ∨
        p.sequence_flags &&& SEQ_INCREMENTAL_STATE_CLEARED ≠ 0 then
      HandleIncrementalStateCleared ctx p
    else if p.previous_packet_dropped = true then
      HandlePreviousPacketDropped ctx p
    else ctx
  let ctx2 :=
    match p.trace_packet_defaults with
    | some d => ParseTracePacketDefaults ctx1 p d
    | none => ctx1
  match p.interned_data with
  | some fields => ParseInternedData ctx2 p fields
  | none => ctx2

/-- Construction of one ClockTracker::ClockValue from a decoded
ClockSnapshot.Clock tuple (with the already-globalized clock id): a zero or
absent unit_multiplier_ns becomes 1. -/
def toClockValue (cid : Nat) (clk : ClockTuple) : ClockValue :=
  { clock_id := cid
    absolute_timestamp := uint64ToInt64 clk.timestamp
    unit_multiplier_ns :=
      if clk.unit_multiplier_ns ≠ 0 then uint64ToInt64 clk.unit_multiplier_ns else 1
    is_incremental := clk.is_incremental }

/-- The clocks-vector loop of ParseClockSnapshot: globalize sequence-scoped
ids (erroring on a zero sequence id) and build the ClockValue list. -/
def buildClocks (seq_id : Nat) : List ClockTuple → Except String (List ClockValue)
  | [] => Except.ok []
  | clk :: rest =>
    if IsReservedSeqScopedClockId clk.clock_id then
      if seq_id = 0 then Except.error (clockSnapshotSeqZeroMsg clk.clock_id)
      else
        match buildClocks seq_id rest with
        | Except.ok vs =>
          Except.ok (toClockValue (SeqScopedClockIdToGlobal seq_id clk.clock_id) clk :: vs)
        | Except.error e => Except.error e
    else
      match buildClocks seq_id rest with
      | Except.ok vs => Except.ok (toClockValue clk.clock_id clk :: vs)
      | Except.error e => Except.error e

/-- ProtoTraceReader::GetBuiltinClockNameOrNull. -/
def GetBuiltinClockNameOrNull (clock_id : Nat) : Option String :=
  if clock_id = 1 then some "REALTIME"
  else if clock_id = 2 then some "REALTIME_COARSE"
  else if clock_id = 3 then some "MONOTONIC"
  else if clock_id = 4 then some "MONOTONIC_COARSE"
  else if clock_id = 5 then some "MONOTONIC_RAW"
  else if clock_id = 6 then some "BOOTTIME"
  else none

/-- The row-insertion loop of ParseClockSnapshot: for each clock convert (0
for incremental clocks) and, when conversion succeeds, insert one row into
the clock-snapshot table; unresolvable clocks are skipped. -/
def addSnapshotRows (ctx : Ctx) (snapshot_id : Nat) :
    List ClockValue → Ctx
  | [] => ctx
  | clock :: rest =>
    let ts_to_convert : Int :=
      if clock.is_incremental then 0 else clock.absolute_timestamp
    let r := ToTraceTime ctx clock.clock_id ts_to_convert
    match r.1 with
    | none => addSnapshotRows r.2 snapshot_id rest
    | some t =>
      let row : ClockSnapshotRow :=
        { ts := t
          clock_id := uint64ToInt64 clock.clock_id
          clock_value := clock.absolute_timestamp
          clock_name := GetBuiltinClockNameOrNull clock.clock_id
          snapshot_id := snapshot_id }
      addSnapshotRows
        { r.2 with clock_snapshot_rows := r.2.clock_snapshot_rows ++ [row] }
        snapshot_id rest

/-- ProtoTraceReader::ParseClockSnapshot. -/
def ParseClockSnapshot (ctx : Ctx) (evt : ClockSnapshotMsg) (seq_id : Nat) :
    Status × Ctx :=
  let ctx := if evt.primary_trace_clock ≠ 0
             then SetTraceTimeClock ctx evt.primary_trace_clock else ctx
  match buildClocks seq_id evt.clocks with
  | Except.error msg => (Status.err msg, ctx)
  | Except.ok clocks =>
    let r := AddSnapshot ctx clocks
    (Status.ok, addSnapshotRows r.2 r.1 clocks)

/-- Sorter barrier: TraceSorter::NotifyFlushEvent.  Modelled from the spec. -/
def NotifyFlushEvent (s : Sorter) : Sorter :=
  { s with flushEvents := s.flushEvents + 1 }

/-- Sorter barrier: TraceSorter::NotifyReadBufferEvent.  Modelled from the
spec. -/
def NotifyReadBufferEvent (s : Sorter) : Sorter :=
  { s with readBufferEvents := s.readBufferEvents + 1 }

/-- MetadataTracker::SetMetadata.  Modelled from the spec: records the
(key, integer) pair. -/
def SetMetadata (ctx : Ctx) (k : MetadataKey) (v : Int) : Ctx :=
  { ctx with metadata := ctx.metadata ++ [(k, v)] }

/-- ProtoTraceReader::ParseServiceEvent. -/
def ParseServiceEvent (ctx : Ctx) (ts : Int) (tse : ServiceEventMsg) :
    Status × Ctx :=
  let ctx := if tse.tracing_started
             then SetMetadata ctx MetadataKey.tracing_started_ns ts else ctx
  let ctx := if tse.tracing_disabled
             then SetMetadata ctx MetadataKey.tracing_disabled_ns ts else ctx
  let ctx := if tse.all_data_sources_started
             then SetMetadata ctx MetadataKey.all_data_source_started_ns ts else ctx
  let ctx := if tse.all_data_sources_flushed
             then { ctx with sorter := NotifyFlushEvent ctx.sorter } else ctx
  let ctx := if tse.read_tracing_buffers_completed
             then { ctx with sorter := NotifyReadBufferEvent ctx.sorter } else ctx
  (Status.ok, ctx)

/-- ProtoTraceReader::ParseExtensionDescriptor.  Modelled from the spec: the
descriptor pool registration is an external collaborator; the extension set
is recorded and the call reports ok. -/
def ParseExtensionDescriptor (ctx : Ctx) (descriptor : Blob) : Status × Ctx :=
  (Status.ok, { ctx with descriptors := ctx.descriptors ++ [descriptor] })

/-- ProtoTraceReader::ParseTraceConfig only emits a log warning; it is the
identity on core state. -/
def ParseTraceConfig (ctx : Ctx) : Ctx := ctx

/-- The module-dispatch loop of ParsePacket: for field ids 1 .. modulesSize,
offer the packet to the modules registered on each populated field; the
first non-ignored result is returned as a status (the emptiness test on the
module list is subsumed by findSome? over an empty list). -/
def firstModuleStatus (ctx : Ctx) (p : TracePacket) (ts : Int) : Option Status :=
  ((List.range ctx.modulesSize).drop 1).findSome? fun field_id =>
    if field_id ∈ p.moduleFields then
      (ctx.modulesByField field_id).findSome? fun m =>
        match m p ts with
        | ModuleResult.ignored => none
        | r => some r.toStatus
    else none

/-- TraceSorter::PushTracePacket.  Modelled from the spec: appends the entry
and maintains max_timestamp() as the largest timestamp ever pushed. -/
def PushTracePacket (ctx : Ctx) (ts : Int) (p : TracePacket) : Ctx :=
  { ctx with sorter := { ctx.sorter with
      pushed := ctx.sorter.pushed ++ [(ts, p)]
      maxTs := max ctx.sorter.maxTs ts } }

/-- Tail of ParsePacket after the timestamp is resolved (lines 209-231):
update latest_timestamp_, run module dispatch, handle trace_config, push to
the sorter. -/
def finishPacket (ctx : Ctx) (p : TracePacket) (timestamp : Int) :
    Status × Ctx :=
  let ctx := { ctx with latest_timestamp := max timestamp ctx.latest_timestamp }
  match firstModuleStatus ctx p timestamp with
  | some st => (st, ctx)
  | none =>
    let ctx := if p.trace_config then ParseTraceConfig ctx else ctx
    (Status.ok, PushTracePacket ctx timestamp p)

/-- The effective timestamp clock id (lines 160-163): the packet's
timestamp_clock_id, else the current defaults id, else 0. -/
def effectiveClockId (p : TracePacket)
    (defaults : Option TracePacketDefaultsMsg) : Nat :=
  match p.timestamp_clock_id with
  | some c => c
  | none =>
    match defaults with
    | some d => d.timestamp_clock_id
    | none => 0

/-- The converted clock id (lines 181-194): globalized when
sequence-scoped. -/
def convertedClockId (seq_id cid : Nat) : Nat :=
  if IsReservedSeqScopedClockId cid then SeqScopedClockIdToGlobal seq_id cid
  else cid

/-- Timestamp resolution and dispatch (lines 153-231 of ParsePacket). -/
def resolveTimestampAndPush (ctx : Ctx) (p : TracePacket) (seq_id : Nat) :
    Status × Ctx :=
  let defaults := (ctx.seqStates seq_id).defaults
  match p.timestamp with
  | none =>
    finishPacket ctx p (max ctx.latest_timestamp ctx.sorter.maxTs)
  | some tsRaw =>
    let timestamp := uint64ToInt64 tsRaw
    let tcid := effectiveClockId p defaults
    if (p.chrome_events = true ∨ p.chrome_metadata = true) ∧
        (tcid = 0 ∨ tcid = BUILTIN_CLOCK_MONOTONIC) then
      let r := ToTraceTime ctx BUILTIN_CLOCK_MONOTONIC timestamp
      finishPacket r.2 p (r.1.getD timestamp)
    else if tcid ≠ 0 then
      if IsReservedSeqScopedClockId tcid = true ∧ seq_id = 0 then
        (Status.err (seqScopedClockSeqZeroMsg tcid), ctx)
      else
        let r := ToTraceTime ctx (convertedClockId seq_id tcid) timestamp
        match r.1 with
        | none => (Status.ok, r.2)
        | some t => finishPacket r.2 p t
    else
      finishPacket ctx p timestamp

/-- ProtoTraceReader::ParsePacket. -/
def ParsePacket (ctx : Ctx) (p : TracePacket) : Status × Ctx :=
  if p.bytesLeft ≠ 0 then (Status.err corruptMsg, ctx)
  else
    let seq_id := p.seqId
    let ctx1 := stateUpdates ctx p
    match p.clock_snapshot with
    | some cs => ParseClockSnapshot ctx1 cs seq_id
    | none =>
      match p.service_event with
      | some se => ParseServiceEvent ctx1 (uint64ToInt64 (p.timestamp.getD 0)) se
      | none =>
        match p.extension_descriptor with
        | some ed => ParseExtensionDescriptor ctx1 ed
        | none =>
          if p.sequence_flags &&& SEQ_NEEDS_INCREMENTAL_STATE ≠ 0 ∧ seq_id = 0 then
            (Status.err needsIncrementalSeqZeroMsg, ctx1)
          else if p.sequence_flags &&& SEQ_NEEDS_INCREMENTAL_STATE ≠ 0 ∧
              (ctx1.seqStates seq_id).valid = false then
            (Status.ok, incrTokenizerSkipped ctx1)
          else if p.frame_timeline_event = true ∧ p.timestamp.getD 0 = 0 then
            (Status.ok, incrFrameTimelineErrors ctx1)
          else
            resolveTimestampAndPush ctx1 p seq_id

/-! ### Concrete inputs used to evaluate the definitions -/

/-- A context with no modules registered and a clock tracker that resolves
no conversion. -/
def ctxNone : Ctx :=
  { seqStates := fun _ => {}
    clock_tracker := { toTraceTimeFn := fun _ _ => none } }

/-- A context with no modules registered and a clock tracker whose
conversions succeed and return the value unchanged. -/
def ctxId : Ctx :=
  { seqStates := fun _ => {}
    clock_tracker := { toTraceTimeFn := fun _ v => some v } }

/-- A context in which sequence 4 already has valid incremental state. -/
def ctxValid4 : Ctx :=
  { seqStates := fun n => if n = 4 then { valid := true } else {}
    clock_tracker := { toTraceTimeFn := fun _ _ => none } }

/-- A packet with no fields set. -/
def pktEmpty : TracePacket := {}

/-- A packet carrying only the needs-incremental-state flag. -/
def pktFlagOnly : TracePacket := { sequence_flags := SEQ_NEEDS_INCREMENTAL_STATE }

/-- A packet carrying the needs-incremental-state flag on sequence 5. -/
def pktFlagSeq5 : TracePacket :=
  { sequence_flags := SEQ_NEEDS_INCREMENTAL_STATE
    trusted_packet_sequence_id := some 5 }

/-- A timestamped packet on sequence 9 whose clock id 70 is
sequence-scoped. -/
def pktClock70 : TracePacket :=
  { timestamp := some 10
    timestamp_clock_id := some 70
    trusted_packet_sequence_id := some 9 }

/-- A timestamped packet with sequence-scoped clock id 64 and no sequence
id. -/
def pktClock64NoSeq : TracePacket :=
  { timestamp := some 5, timestamp_clock_id := some 64 }

/-- A ClockSnapshot with a single sequence-scoped clock. -/
def evtSeqScoped : ClockSnapshotMsg := { clocks := [{ clock_id := 64 }] }

/-- A packet carrying only that snapshot (and no sequence id). -/
def pktSnapNoSeq : TracePacket := { clock_snapshot := some evtSeqScoped }

/-- A packet carrying interned data on sequence 4. -/
def pktSeq4 : TracePacket := { trusted_packet_sequence_id := some 4 }

/-- Two interned-data fields. -/
def fieldsTwo : List InternedField := [{ id := 1, bytes := [7] }, { id := 2, bytes := [8, 9] }]

/-- A service-event packet announcing tracing_started at time 50. -/
def pktStarted : TracePacket :=
  { timestamp := some 50, service_event := some { tracing_started := true } }

/-- A service-event packet announcing all_data_sources_flushed at time 7. -/
def pktFlushed : TracePacket :=
  { timestamp := some 7, service_event := some { all_data_sources_flushed := true } }

/-- A snapshot whose only clock (id 555) resolves to no trace time in
ctxNone. -/
def evtClock555 : ClockSnapshotMsg := { clocks := [{ clock_id := 555, timestamp := 100 }] }

/-- A snapshot of the BOOTTIME clock. -/
def evtBoottime : ClockSnapshotMsg := { clocks := [{ clock_id := 6, timestamp := 100 }] }

/-- A packet with previous_packet_dropped and no sequence id. -/
def pktDropped : TracePacket := { previous_packet_dropped := true }

/-! ### Frame lemmas: which parts of the context each helper leaves alone -/

/-- The context projections that the per-packet sequence-state and stats
updates (lines 86-111) never touch. -/
def coreFrame (a b : Ctx) : Prop :=
  a.sorter = b.sorter ∧ a.latest_timestamp = b.latest_timestamp ∧
  a.clock_tracker = b.clock_tracker ∧ a.metadata = b.metadata ∧
  a.clock_snapshot_rows = b.clock_snapshot_rows ∧
  a.modulesSize = b.modulesSize ∧ a.modulesByField = b.modulesByField

theorem coreFrame_rfl (a : Ctx) : coreFrame a a :=
  ⟨rfl, rfl, rfl, rfl, rfl, rfl, rfl⟩

theorem coreFrame_trans {a b c : Ctx} (h1 : coreFrame a b) (h2 : coreFrame b c) :
    coreFrame a c :=
  ⟨h1.1.trans h2.1, h1.2.1.trans h2.2.1, h1.2.2.1.trans h2.2.2.1,
   h1.2.2.2.1.trans h2.2.2.2.1, h1.2.2.2.2.1.trans h2.2.2.2.2.1,
   h1.2.2.2.2.2.1.trans h2.2.2.2.2.2.1, h1.2.2.2.2.2.2.trans h2.2.2.2.2.2.2⟩

theorem hisc_frame {ctx b : Ctx} (p : TracePacket) (h : coreFrame ctx b) :
    coreFrame (HandleIncrementalStateCleared ctx p) b := by
  unfold HandleIncrementalStateCleared
  cases p.trusted_packet_sequence_id <;>
    exact coreFrame_trans ⟨rfl, rfl, rfl, rfl, rfl, rfl, rfl⟩ h

theorem hppd_frame {ctx b : Ctx} (p : TracePacket) (h : coreFrame ctx b) :
    coreFrame (HandlePreviousPacketDropped ctx p) b := by
  unfold HandlePreviousPacketDropped
  cases p.trusted_packet_sequence_id <;>
    exact coreFrame_trans ⟨rfl, rfl, rfl, rfl, rfl, rfl, rfl⟩ h

theorem ptpd_frame {ctx b : Ctx} (p : TracePacket) (d : TracePacketDefaultsMsg)
    (h : coreFrame ctx b) : coreFrame (ParseTracePacketDefaults ctx p d) b := by
  unfold ParseTracePacketDefaults
  cases p.trusted_packet_sequence_id <;>
    exact coreFrame_trans ⟨rfl, rfl, rfl, rfl, rfl, rfl, rfl⟩ h

theorem pid_frame {ctx b : Ctx} (p : TracePacket) (fields : List InternedField)
    (h : coreFrame ctx b) : coreFrame (ParseInternedData ctx p fields) b := by
  cases hs : p.trusted_packet_sequence_id with
  | none =>
    simp only [ParseInternedData, hs]
    exact coreFrame_trans ⟨rfl, rfl, rfl, rfl, rfl, rfl, rfl⟩ h
  | some sid =>
    simp only [ParseInternedData, hs]
    by_cases hv : (ctx.seqStates sid).valid = false
    · rw [if_pos hv]
      exact coreFrame_trans ⟨rfl, rfl, rfl, rfl, rfl, rfl, rfl⟩ h
    · rw [if_neg hv]
      exact coreFrame_trans ⟨rfl, rfl, rfl, rfl, rfl, rfl, rfl⟩ h

theorem stateUpdates_frame (ctx : Ctx) (p : TracePacket) :
    coreFrame (stateUpdates ctx p) ctx := by
  have h1 : coreFrame
      (if p.incremental_state_cleared = true ∨
          p.sequence_flags &&& SEQ_INCREMENTAL_STATE_CLEARED ≠ 0 then
        HandleIncrementalStateCleared ctx p
      else if p.previous_packet_dropped = true then
        HandlePreviousPacketDropped ctx p
      else ctx) ctx := by
    split
    · exact hisc_frame p (coreFrame_rfl ctx)
    · split
      · exact hppd_frame p (coreFrame_rfl ctx)
      · exact coreFrame_rfl ctx
  cases hid : p.interned_data with
  | none =>
    cases hd : p.trace_packet_defaults with
    | none => simpa only [stateUpdates, hid, hd] using h1
    | some d =>
      simp only [stateUpdates, hid, hd]
      exact ptpd_frame p d h1
  | some fields =>
    cases hd : p.trace_packet_defaults with
    | none =>
      simp only [stateUpdates, hid, hd]
      exact pid_frame p fields h1
    | some d =>
      simp only [stateUpdates, hid, hd]
      exact pid_frame p fields (ptpd_frame p d h1)

theorem stateUpdates_sorter (ctx : Ctx) (p : TracePacket) :
    (stateUpdates ctx p).sorter = ctx.sorter := (stateUpdates_frame ctx p).1

theorem stateUpdates_latest (ctx : Ctx) (p : TracePacket) :
    (stateUpdates ctx p).latest_timestamp = ctx.latest_timestamp :=
  (stateUpdates_frame ctx p).2.1

theorem stateUpdates_clock_tracker (ctx : Ctx) (p : TracePacket) :
    (stateUpdates ctx p).clock_tracker = ctx.clock_tracker :=
  (stateUpdates_frame ctx p).2.2.1

theorem stateUpdates_metadata (ctx : Ctx) (p : TracePacket) :
    (stateUpdates ctx p).metadata = ctx.metadata :=
  (stateUpdates_frame ctx p).2.2.2.1

theorem stateUpdates_modulesByField (ctx : Ctx) (p : TracePacket) :
    (stateUpdates ctx p).modulesByField = ctx.modulesByField :=
  (stateUpdates_frame ctx p).2.2.2.2.2.2

theorem ToTraceTime_fst (ctx : Ctx) (cid : Nat) (v : Int) :
    (ToTraceTime ctx cid v).1 = ctx.clock_tracker.toTraceTimeFn cid v := by
  unfold ToTraceTime
  cases h : ctx.clock_tracker.toTraceTimeFn cid v <;> simp [h]

theorem ToTraceTime_latest (ctx : Ctx) (cid : Nat) (v : Int) :
    (ToTraceTime ctx cid v).2.latest_timestamp = ctx.latest_timestamp := by
  unfold ToTraceTime
  cases h : ctx.clock_tracker.toTraceTimeFn cid v <;> rfl

theorem ToTraceTime_sorter (ctx : Ctx) (cid : Nat) (v : Int) :
    (ToTraceTime ctx cid v).2.sorter = ctx.sorter := by
  unfold ToTraceTime
  cases h : ctx.clock_tracker.toTraceTimeFn cid v <;> rfl

theorem ToTraceTime_clock_tracker (ctx : Ctx) (cid : Nat) (v : Int) :
    (ToTraceTime ctx cid v).2.clock_tracker = ctx.clock_tracker := by
  unfold ToTraceTime
  cases h : ctx.clock_tracker.toTraceTimeFn cid v <;> rfl

theorem ToTraceTime_modulesByField (ctx : Ctx) (cid : Nat) (v : Int) :
    (ToTraceTime ctx cid v).2.modulesByField = ctx.modulesByField := by
  unfold ToTraceTime
  cases h : ctx.clock_tracker.toTraceTimeFn cid v <;> rfl

theorem list_findSome_none {α β : Type} (f : α → Option β) :
    ∀ l : List α, (∀ x ∈ l, f x = none) → l.findSome? f = none := by
  intro l
  induction l with
  | nil => intro _; rfl
  | cons a t ih =>
    intro h
    have ha := h a (List.mem_cons_self a t)
    have ht := ih fun x hx => h x (List.mem_cons_of_mem a hx)
    simp [List.findSome?_cons, ha, ht]

theorem firstModuleStatus_none (ctx : Ctx) (p : TracePacket) (ts : Int)
    (h : ∀ fid, ctx.modulesByField fid = []) :
    firstModuleStatus ctx p ts = none := by
  unfold firstModuleStatus
  apply list_findSome_none
  intro fid _
  rw [h fid]
  split <;> rfl

theorem finishPacket_eq (ctx : Ctx) (p : TracePacket) (ts : Int)
    (h : ∀ fid, ctx.modulesByField fid = []) :
    finishPacket ctx p ts =
      (Status.ok,
       PushTracePacket { ctx with latest_timestamp := max ts ctx.latest_timestamp } ts p) := by
  simp only [finishPacket]
  have h2 : firstModuleStatus
      { ctx with latest_timestamp := max ts ctx.latest_timestamp } p ts = none :=
    firstModuleStatus_none _ p ts h
  rw [h2]
  simp [ParseTraceConfig]

theorem finishPacket_latest (ctx : Ctx) (p : TracePacket) (ts : Int) :
    (finishPacket ctx p ts).2.latest_timestamp = max ts ctx.latest_timestamp := by
  simp only [finishPacket]
  split
  · rfl
  · simp only [ParseTraceConfig, PushTracePacket]
    split <;> rfl

theorem finishPacket_pushed_latest (ctx : Ctx) (p : TracePacket) (ts : Int) :
    ((finishPacket ctx p ts).2.sorter.pushed = ctx.sorter.pushed ∧
      (finishPacket ctx p ts).2.latest_timestamp = max ts ctx.latest_timestamp) ∨
    ((finishPacket ctx p ts).2.sorter.pushed = ctx.sorter.pushed ++ [(ts, p)] ∧
      (finishPacket ctx p ts).2.latest_timestamp = max ts ctx.latest_timestamp) := by
  simp only [finishPacket]
  split
  · exact Or.inl ⟨rfl, rfl⟩
  · simp only [ParseTraceConfig, PushTracePacket]
    split <;> exact Or.inr ⟨rfl, rfl⟩

/-- The per-clock row contributed by the row-insertion loop, as a function
of the abstract conversion: none exactly when the clock does not resolve. -/
def snapshotRowOf (fn : Nat → Int → Option Int) (snapshot_id : Nat)
    (c : ClockValue) : Option ClockSnapshotRow :=
  match fn c.clock_id (if c.is_incremental then 0 else c.absolute_timestamp) with
  | none => none
  | some t =>
    some { ts := t
           clock_id := uint64ToInt64 c.clock_id
           clock_value := c.absolute_timestamp
           clock_name := GetBuiltinClockNameOrNull c.clock_id
           snapshot_id := snapshot_id }

theorem addSnapshotRows_rows (sid : Nat) (l : List ClockValue) :
    ∀ ctx : Ctx, (addSnapshotRows ctx sid l).clock_snapshot_rows =
      ctx.clock_snapshot_rows ++
        l.filterMap (snapshotRowOf ctx.clock_tracker.toTraceTimeFn sid) := by
  induction l with
  | nil => intro ctx; simp [addSnapshotRows]
  | cons c rest ih =>
    intro ctx
    simp only [addSnapshotRows]
    cases h : ctx.clock_tracker.toTraceTimeFn c.clock_id
        (if c.is_incremental then 0 else c.absolute_timestamp) with
    | none =>
      simp only [ToTraceTime, h]
      rw [ih]
      simp [snapshotRowOf, h, incrClockSyncFailure]
    | some t =>
      simp only [ToTraceTime, h]
      rw [ih]
      simp [snapshotRowOf, h]

theorem addSnapshotRows_latest (sid : Nat) (l : List ClockValue) :
    ∀ ctx : Ctx, (addSnapshotRows ctx sid l).latest_timestamp =
      ctx.latest_timestamp := by
  induction l with
  | nil => intro ctx; rfl
  | cons c rest ih =>
    intro ctx
    simp only [addSnapshotRows]
    cases h : ctx.clock_tracker.toTraceTimeFn c.clock_id
        (if c.is_incremental then 0 else c.absolute_timestamp) with
    | none => simp only [ToTraceTime, h]; rw [ih]; rfl
    | some t => simp only [ToTraceTime, h]; rw [ih]

theorem addSnapshotRows_sorter (sid : Nat) (l : List ClockValue) :
    ∀ ctx : Ctx, (addSnapshotRows ctx sid l).sorter = ctx.sorter := by
  induction l with
  | nil => intro ctx; rfl
  | cons c rest ih =>
    intro ctx
    simp only [addSnapshotRows]
    cases h : ctx.clock_tracker.toTraceTimeFn c.clock_id
        (if c.is_incremental then 0 else c.absolute_timestamp) with
    | none => simp only [ToTraceTime, h]; rw [ih]; rfl
    | some t => simp only [ToTraceTime, h]; rw [ih]

theorem ParseClockSnapshot_latest (ctx : Ctx) (evt : ClockSnapshotMsg)
    (sid : Nat) :
    (ParseClockSnapshot ctx evt sid).2.latest_timestamp = ctx.latest_timestamp := by
  simp only [ParseClockSnapshot]
  split
  · split <;> rfl
  · dsimp only
    rw [addSnapshotRows_latest]
    split <;> rfl

theorem ParseClockSnapshot_sorter (ctx : Ctx) (evt : ClockSnapshotMsg)
    (sid : Nat) :
    (ParseClockSnapshot ctx evt sid).2.sorter = ctx.sorter := by
  simp only [ParseClockSnapshot]
  split
  · split <;> rfl
  · dsimp only
    rw [addSnapshotRows_sorter]
    split <;> rfl

theorem ParseServiceEvent_latest (ctx : Ctx) (ts : Int) (se : ServiceEventMsg) :
    (ParseServiceEvent ctx ts se).2.latest_timestamp = ctx.latest_timestamp := by
  obtain ⟨a, b, c, d, e⟩ := se
  cases a <;> cases b <;> cases c <;> cases d <;> cases e <;> rfl

theorem ParseServiceEvent_pushed (ctx : Ctx) (ts : Int) (se : ServiceEventMsg) :
    (ParseServiceEvent ctx ts se).2.sorter.pushed = ctx.sorter.pushed := by
  obtain ⟨a, b, c, d, e⟩ := se
  cases a <;> cases b <;> cases c <;> cases d <;> cases e <;> rfl

theorem resolve_latest_mono (ctx : Ctx) (p : TracePacket) (sid : Nat) :
    ctx.latest_timestamp ≤ (resolveTimestampAndPush ctx p sid).2.latest_timestamp := by
  cases hts : p.timestamp with
  | none =>
    simp only [resolveTimestampAndPush, hts]
    rw [finishPacket_latest]
    exact le_max_right _ _
  | some tsRaw =>
    simp only [resolveTimestampAndPush, hts]
    split
    · rw [finishPacket_latest, ToTraceTime_latest]
      exact le_max_right _ _
    · split
      · split
        · exact le_refl _
        · split
          · dsimp only
            rw [ToTraceTime_latest]
          · rw [finishPacket_latest, ToTraceTime_latest]
            exact le_max_right _ _
      · rw [finishPacket_latest]
        exact le_max_right _ _

theorem resolve_pushed (ctx : Ctx) (p : TracePacket) (sid : Nat) :
    ((resolveTimestampAndPush ctx p sid).2.sorter.pushed = ctx.sorter.pushed) ∨
    (∃ t, (resolveTimestampAndPush ctx p sid).2.sorter.pushed =
        ctx.sorter.pushed ++ [(t, p)] ∧
      (resolveTimestampAndPush ctx p sid).2.latest_timestamp =
        max ctx.latest_timestamp t) := by
  cases hts : p.timestamp with
  | none =>
    simp only [resolveTimestampAndPush, hts]
    rcases finishPacket_pushed_latest ctx p
        (max ctx.latest_timestamp ctx.sorter.maxTs) with ⟨h1, h2⟩ | ⟨h1, h2⟩
    · exact Or.inl h1
    · exact Or.inr ⟨_, h1, by rw [h2, max_comm]⟩
  | some tsRaw =>
    simp only [resolveTimestampAndPush, hts]
    split
    · rcases finishPacket_pushed_latest (ToTraceTime ctx BUILTIN_CLOCK_MONOTONIC
          (uint64ToInt64 tsRaw)).2 p
          ((ToTraceTime ctx BUILTIN_CLOCK_MONOTONIC
            (uint64ToInt64 tsRaw)).1.getD (uint64ToInt64 tsRaw)) with
        ⟨h1, h2⟩ | ⟨h1, h2⟩
      · rw [ToTraceTime_sorter] at h1
        exact Or.inl h1
      · rw [ToTraceTime_sorter] at h1
        rw [ToTraceTime_latest] at h2
        exact Or.inr ⟨_, h1, by rw [h2, max_comm]⟩
    · split
      · split
        · exact Or.inl rfl
        · split
          · dsimp only
            rw [ToTraceTime_sorter]
            exact Or.inl rfl
          · rename_i t heq
            rcases finishPacket_pushed_latest (ToTraceTime ctx
                (convertedClockId sid (effectiveClockId p (ctx.seqStates sid).defaults))
                (uint64ToInt64 tsRaw)).2 p t with ⟨h1, h2⟩ | ⟨h1, h2⟩
            · rw [ToTraceTime_sorter] at h1
              exact Or.inl h1
            · rw [ToTraceTime_sorter] at h1
              rw [ToTraceTime_latest] at h2
              exact Or.inr ⟨_, h1, by rw [h2, max_comm]⟩
      · rcases finishPacket_pushed_latest ctx p (uint64ToInt64 tsRaw) with
          ⟨h1, h2⟩ | ⟨h1, h2⟩
        · exact Or.inl h1
        · exact Or.inr ⟨_, h1, by rw [h2, max_comm]⟩

theorem ParsePacket_latest_mono (ctx : Ctx) (p : TracePacket) :
    ctx.latest_timestamp ≤ (ParsePacket ctx p).2.latest_timestamp := by
  have hsu := stateUpdates_latest ctx p
  simp only [ParsePacket]
  split
  · exact le_refl _
  · split
    · rw [ParseClockSnapshot_latest, hsu]
    · split
      · rw [ParseServiceEvent_latest, hsu]
      · split
        · dsimp only [ParseExtensionDescriptor]
          rw [hsu]
        · split
          · dsimp only
            rw [hsu]
          · split
            · dsimp only [incrTokenizerSkipped]
              rw [hsu]
            · split
              · dsimp only [incrFrameTimelineErrors]
                rw [hsu]
              · exact le_trans (le_of_eq hsu.symm)
                  (resolve_latest_mono (stateUpdates ctx p) p p.seqId)

theorem ParsePacket_pushed (ctx : Ctx) (p : TracePacket) :
    ((ParsePacket ctx p).2.sorter.pushed = ctx.sorter.pushed) ∨
    (∃ t, (ParsePacket ctx p).2.sorter.pushed = ctx.sorter.pushed ++ [(t, p)] ∧
      (ParsePacket ctx p).2.latest_timestamp = max ctx.latest_timestamp t) := by
  have hsu : (stateUpdates ctx p).sorter = ctx.sorter := stateUpdates_sorter ctx p
  have hsl : (stateUpdates ctx p).latest_timestamp = ctx.latest_timestamp :=
    stateUpdates_latest ctx p
  simp only [ParsePacket]
  split
  · exact Or.inl rfl
  · split
    · rw [ParseClockSnapshot_sorter, hsu]
      exact Or.inl rfl
    · split
      · rw [ParseServiceEvent_pushed, hsu]
        exact Or.inl rfl
      · split
        · dsimp only [ParseExtensionDescriptor]
          rw [hsu]
          exact Or.inl rfl
        · split
          · dsimp only
            rw [hsu]
            exact Or.inl rfl
          · split
            · dsimp only [incrTokenizerSkipped]
              rw [hsu]
              exact Or.inl rfl
            · split
              · dsimp only [incrFrameTimelineErrors]
                rw [hsu]
                exact Or.inl rfl
              · rcases resolve_pushed (stateUpdates ctx p) p p.seqId with
                  h | ⟨t, h1, h2⟩
                · rw [hsu] at h
                  exact Or.inl h
                · rw [hsu] at h1
                  rw [hsl] at h2
                  exact Or.inr ⟨t, h1, h2⟩

/-! ### Claims -/

/-- C2: for every packet blob handed to ParsePacket whose TracePacket
decoder leaves trailing unparsed bytes, ParsePacket returns the "corrupt"
error status and the whole ingestion state (sequence states, clock state,
stats, sorter) is returned unchanged. -/
theorem c2_trailing_bytes_corrupt (ctx : Ctx) (p : TracePacket)
    (h : p.bytesLeft ≠ 0) :
    ParsePacket ctx p = (Status.err corruptMsg, ctx) := by
  simp only [ParsePacket]
  rw [if_pos h]

theorem c2_witness :
    ({ bytesLeft := 3 } : TracePacket).bytesLeft ≠ 0 ∧
    ParsePacket ctxNone { bytesLeft := 3 } = (Status.err corruptMsg, ctxNone) :=
  ⟨by decide, c2_trailing_bytes_corrupt ctxNone { bytesLeft := 3 } (by decide)⟩

/-- C10: a ClockSnapshot clock tuple whose unit_multiplier_ns is absent or
zero (the decoder yields 0 in both cases) is turned into a ClockValue with
unit multiplier 1 before being handed to AddSnapshot. -/
theorem c10_unit_multiplier_default (cid : Nat) (clk : ClockTuple)
    (h : clk.unit_multiplier_ns = 0) :
    (toClockValue cid clk).unit_multiplier_ns = 1 := by
  simp [toClockValue, h]

theorem c10_witness :
    ({ clock_id := 5 } : ClockTuple).unit_multiplier_ns = 0 ∧
    (toClockValue 5 { clock_id := 5 }).unit_multiplier_ns = 1 :=
  ⟨rfl, c10_unit_multiplier_default 5 { clock_id := 5 } rfl⟩

/-- C1: for a packet carrying the needs-incremental-state flag and none of
clock_snapshot, service_event or extension_descriptor: a zero sequence id
is an error; a nonzero sequence id whose incremental state is not valid at
the check increments tokenizer_skipped_packets and returns ok without
pushing to the sorter. -/
theorem c1_needs_incremental_state_gate (ctx : Ctx) (p : TracePacket)
    (hbl : p.bytesLeft = 0)
    (hflag : p.sequence_flags &&& SEQ_NEEDS_INCREMENTAL_STATE ≠ 0)
    (hcs : p.clock_snapshot = none) (hse : p.service_event = none)
    (hed : p.extension_descriptor = none) :
    (p.seqId = 0 →
      ParsePacket ctx p = (Status.err needsIncrementalSeqZeroMsg, stateUpdates ctx p)) ∧
    (p.seqId ≠ 0 →
      ((stateUpdates ctx p).seqStates p.seqId).valid = false →
      ParsePacket ctx p = (Status.ok, incrTokenizerSkipped (stateUpdates ctx p)) ∧
      (ParsePacket ctx p).2.sorter.pushed = ctx.sorter.pushed ∧
      (ParsePacket ctx p).2.stats.tokenizer_skipped_packets =
        (stateUpdates ctx p).stats.tokenizer_skipped_packets + 1) := by
  constructor
  · intro hsid
    simp only [ParsePacket]
    rw [if_neg (by simp [hbl])]
    simp only [hcs, hse, hed]
    rw [if_pos ⟨hflag, hsid⟩]
  · intro hsid hv
    have hmain : ParsePacket ctx p =
        (Status.ok, incrTokenizerSkipped (stateUpdates ctx p)) := by
      simp only [ParsePacket]
      rw [if_neg (by simp [hbl])]
      simp only [hcs, hse, hed]
      rw [if_neg (fun hc => hsid hc.2), if_pos ⟨hflag, hv⟩]
    refine ⟨hmain, ?_, ?_⟩
    · rw [hmain]
      exact congrArg Sorter.pushed (stateUpdates_sorter ctx p)
    · rw [hmain]
      rfl

theorem c1_witness :
    (ParsePacket ctxNone pktFlagOnly =
      (Status.err needsIncrementalSeqZeroMsg, stateUpdates ctxNone pktFlagOnly)) ∧
    (ParsePacket ctxNone pktFlagSeq5 =
      (Status.ok, incrTokenizerSkipped (stateUpdates ctxNone pktFlagSeq5)) ∧
     (ParsePacket ctxNone pktFlagSeq5).2.sorter.pushed = ctxNone.sorter.pushed ∧
     (ParsePacket ctxNone pktFlagSeq5).2.stats.tokenizer_skipped_packets =
       (stateUpdates ctxNone pktFlagSeq5).stats.tokenizer_skipped_packets + 1) :=
  ⟨(c1_needs_incremental_state_gate ctxNone pktFlagOnly rfl (by decide) rfl rfl rfl).1 rfl,
   (c1_needs_incremental_state_gate ctxNone pktFlagSeq5 rfl (by decide) rfl rfl rfl).2
     (by decide) rfl⟩

/-- C9 counterexample: a packet with previous_packet_dropped and no
trusted_packet_sequence_id — a shape outside the three listed by the claim
— also increments interned_data_tokenizer_errors. -/
theorem c9_counterexample :
    pktDropped.interned_data = none ∧
    pktDropped.trace_packet_defaults = none ∧
    pktDropped.incremental_state_cleared = false ∧
    pktDropped.sequence_flags &&& SEQ_INCREMENTAL_STATE_CLEARED = 0 ∧
    pktDropped.trusted_packet_sequence_id = none ∧
    (ParsePacket ctxNone pktDropped).2.stats.interned_data_tokenizer_errors = 1 :=
  ⟨rfl, rfl, rfl, rfl, rfl, rfl⟩

/-- C9 amended: interned_data, trace_packet_defaults, an
incremental-state-cleared marker, and also a previous_packet_dropped
marker, arriving without a trusted_packet_sequence_id, each increment
interned_data_tokenizer_errors and skip the sequence-state update (the
spec's three-shape list is not exhaustive). -/
theorem c9_amended_missing_sequence_id_stat (ctx : Ctx) (p : TracePacket)
    (d : TracePacketDefaultsMsg) (fields : List InternedField)
    (hsid : p.trusted_packet_sequence_id = none) :
    HandleIncrementalStateCleared ctx p = incrInternedErrors ctx ∧
    HandlePreviousPacketDropped ctx p = incrInternedErrors ctx ∧
    ParseTracePacketDefaults ctx p d = incrInternedErrors ctx ∧
    ParseInternedData ctx p fields = incrInternedErrors ctx ∧
    (incrInternedErrors ctx).seqStates = ctx.seqStates ∧
    (incrInternedErrors ctx).stats.interned_data_tokenizer_errors =
      ctx.stats.interned_data_tokenizer_errors + 1 := by
  refine ⟨?_, ?_, ?_, ?_, rfl, rfl⟩ <;>
    simp [HandleIncrementalStateCleared, HandlePreviousPacketDropped,
      ParseTracePacketDefaults, ParseInternedData, hsid]

theorem internFold (fields : List InternedField) :
    ∀ s : SequenceState,
      (fields.foldl (fun s f => s.InternMessage f.id f.bytes) s).interned =
        s.interned ++ fields.map (fun f => (f.id, f.bytes)) := by
  induction fields with
  | nil => intro s; simp
  | cons f t ih =>
    intro s
    rw [List.foldl_cons, ih]
    simp [SequenceState.InternMessage, List.append_assoc]

theorem updateSeq_self (ctx : Ctx) (sid : Nat)
    (f : SequenceState → SequenceState) :
    (ctx.updateSeq sid f).seqStates sid = f (ctx.seqStates sid) := by
  simp [Ctx.updateSeq]

/-- C6: for a packet carrying interned_data and a
trusted_packet_sequence_id, a valid sequence gets every submessage field
passed to InternMessage with its field id and payload view (and no stat is
touched); an invalid sequence gets no InternMessage call and
tokenizer_skipped_packets is incremented by one. -/
theorem c6_interned_data_forwarding (ctx : Ctx) (p : TracePacket)
    (fields : List InternedField) (sid : Nat)
    (hsid : p.trusted_packet_sequence_id = some sid) :
    ((ctx.seqStates sid).valid = true →
      ((ParseInternedData ctx p fields).seqStates sid).interned =
        (ctx.seqStates sid).interned ++ fields.map (fun f => (f.id, f.bytes)) ∧
      (ParseInternedData ctx p fields).stats = ctx.stats) ∧
    ((ctx.seqStates sid).valid = false →
      ParseInternedData ctx p fields = incrTokenizerSkipped ctx ∧
      (ParseInternedData ctx p fields).seqStates = ctx.seqStates ∧
      (ParseInternedData ctx p fields).stats.tokenizer_skipped_packets =
        ctx.stats.tokenizer_skipped_packets + 1) := by
  constructor
  · intro hv
    have hne : ¬((ctx.seqStates sid).valid = false) := by simp [hv]
    have hmain : ParseInternedData ctx p fields =
        ctx.updateSeq sid (fun s =>
          fields.foldl (fun s f => s.InternMessage f.id f.bytes) s) := by
      simp only [ParseInternedData, hsid]
      rw [if_neg hne]
    constructor
    · rw [hmain, updateSeq_self]
      exact internFold fields (ctx.seqStates sid)
    · rw [hmain]
      rfl
  · intro hv
    have hmain : ParseInternedData ctx p fields = incrTokenizerSkipped ctx := by
      simp only [ParseInternedData, hsid]
      rw [if_pos hv]
    exact ⟨hmain, by rw [hmain]; rfl, by rw [hmain]; rfl⟩

theorem c6_witness :
    ((ParseInternedData ctxValid4 pktSeq4 fieldsTwo).seqStates 4).interned =
      [(1, [7]), (2, [8, 9])] ∧
    ParseInternedData ctxNone pktSeq4 fieldsTwo = incrTokenizerSkipped ctxNone := by
  have h1 := (c6_interned_data_forwarding ctxValid4 pktSeq4 fieldsTwo 4 rfl).1 rfl
  have h2 := (c6_interned_data_forwarding ctxNone pktSeq4 fieldsTwo 4 rfl).2 rfl
  exact ⟨by rw [h1.1]; rfl, h2.1⟩

theorem ParseServiceEvent_fst (ctx : Ctx) (ts : Int) (se : ServiceEventMsg) :
    (ParseServiceEvent ctx ts se).1 = Status.ok := by
  obtain ⟨a, b, c, d, e⟩ := se
  cases a <;> cases b <;> cases c <;> cases d <;> cases e <;> rfl

theorem ParseServiceEvent_flush (ctx : Ctx) (ts : Int) (se : ServiceEventMsg) :
    (ParseServiceEvent ctx ts se).2.sorter.flushEvents =
      ctx.sorter.flushEvents + (if se.all_data_sources_flushed then 1 else 0) := by
  obtain ⟨a, b, c, d, e⟩ := se
  cases a <;> cases b <;> cases c <;> cases d <;> cases e <;>
    simp [ParseServiceEvent, SetMetadata, NotifyFlushEvent, NotifyReadBufferEvent]

theorem ParseServiceEvent_readBuffer (ctx : Ctx) (ts : Int) (se : ServiceEventMsg) :
    (ParseServiceEvent ctx ts se).2.sorter.readBufferEvents =
      ctx.sorter.readBufferEvents +
        (if se.read_tracing_buffers_completed then 1 else 0) := by
  obtain ⟨a, b, c, d, e⟩ := se
  cases a <;> cases b <;> cases c <;> cases d <;> cases e <;>
    simp [ParseServiceEvent, SetMetadata, NotifyFlushEvent, NotifyReadBufferEvent]

theorem ParseServiceEvent_metadata (ctx : Ctx) (ts : Int) (se : ServiceEventMsg) :
    (ParseServiceEvent ctx ts se).2.metadata = ctx.metadata ++
      ((if se.tracing_started then [(MetadataKey.tracing_started_ns, ts)] else []) ++
       (if se.tracing_disabled then [(MetadataKey.tracing_disabled_ns, ts)] else []) ++
       (if se.all_data_sources_started then
         [(MetadataKey.all_data_source_started_ns, ts)] else [])) := by
  obtain ⟨a, b, c, d, e⟩ := se
  cases a <;> cases b <;> cases c <;> cases d <;> cases e <;>
    simp [ParseServiceEvent, SetMetadata, NotifyFlushEvent, NotifyReadBufferEvent]

/-- C7 counterexample: a packet whose service_event is tracing_started is
processed with ok status but the sorter is left completely untouched — the
event is recorded in the metadata tracker, not forwarded to the sorter as a
barrier. -/
theorem c7_counterexample :
    pktStarted.service_event = some { tracing_started := true } ∧
    (ParsePacket ctxNone pktStarted).1 = Status.ok ∧
    (ParsePacket ctxNone pktStarted).2.sorter = ctxNone.sorter ∧
    (ParsePacket ctxNone pktStarted).2.metadata =
      [(MetadataKey.tracing_started_ns, 50)] :=
  ⟨rfl, rfl, rfl, rfl⟩

/-- C7 amended: a packet with service_event present takes the packet's
timestamp and is routed to ParseServiceEvent; only all_data_sources_flushed
and read_tracing_buffers_completed notify the sorter (as flush /
read-buffer barriers), while tracing_started, tracing_disabled and
all_data_sources_started record metadata timestamps; the packet itself is
never pushed to the sorter as a regular timestamped entry. -/
theorem c7_amended_service_event (ctx : Ctx) (p : TracePacket)
    (se : ServiceEventMsg)
    (hbl : p.bytesLeft = 0) (hcs : p.clock_snapshot = none)
    (hse : p.service_event = some se) :
    ParsePacket ctx p =
      ParseServiceEvent (stateUpdates ctx p)
        (uint64ToInt64 (p.timestamp.getD 0)) se ∧
    (ParsePacket ctx p).1 = Status.ok ∧
    (ParsePacket ctx p).2.sorter.pushed = ctx.sorter.pushed ∧
    (ParsePacket ctx p).2.sorter.flushEvents =
      ctx.sorter.flushEvents + (if se.all_data_sources_flushed then 1 else 0) ∧
    (ParsePacket ctx p).2.sorter.readBufferEvents =
      ctx.sorter.readBufferEvents +
        (if se.read_tracing_buffers_completed then 1 else 0) ∧
    (ParsePacket ctx p).2.metadata = ctx.metadata ++
      ((if se.tracing_started then
         [(MetadataKey.tracing_started_ns, uint64ToInt64 (p.timestamp.getD 0))] else []) ++
       (if se.tracing_disabled then
         [(MetadataKey.tracing_disabled_ns, uint64ToInt64 (p.timestamp.getD 0))] else []) ++
       (if se.all_data_sources_started then
         [(MetadataKey.all_data_source_started_ns, uint64ToInt64 (p.timestamp.getD 0))] else [])) := by
  have hmain : ParsePacket ctx p =
      ParseServiceEvent (stateUpdates ctx p)
        (uint64ToInt64 (p.timestamp.getD 0)) se := by
    simp only [ParsePacket]
    rw [if_neg (by simp [hbl])]
    simp only [hcs, hse]
  refine ⟨hmain, ?_, ?_, ?_, ?_, ?_⟩
  · rw [hmain, ParseServiceEvent_fst]
  · rw [hmain, ParseServiceEvent_pushed,
      congrArg Sorter.pushed (stateUpdates_sorter ctx p)]
  · rw [hmain, ParseServiceEvent_flush,
      congrArg Sorter.flushEvents (stateUpdates_sorter ctx p)]
  · rw [hmain, ParseServiceEvent_readBuffer,
      congrArg Sorter.readBufferEvents (stateUpdates_sorter ctx p)]
  · rw [hmain, ParseServiceEvent_metadata, stateUpdates_metadata]

theorem c7_amended_witness :
    (ParsePacket ctxNone pktFlushed).1 = Status.ok ∧
    (ParsePacket ctxNone pktFlushed).2.sorter.pushed = [] ∧
    (ParsePacket ctxNone pktFlushed).2.sorter.flushEvents = 1 := by
  have h := c7_amended_service_event ctxNone pktFlushed
    { all_data_sources_flushed := true } rfl rfl rfl
  exact ⟨h.2.1, h.2.2.1, by rw [h.2.2.2.1]; rfl⟩

/-- C8 counterexample: a snapshot with one participating clock whose
conversion fails contributes no row at all to the clock-snapshot table, so
a participating clock does not always contribute exactly one row. -/
theorem c8_counterexample :
    evtClock555.clocks.length = 1 ∧
    (ParseClockSnapshot ctxNone evtClock555 1).1 = Status.ok ∧
    (ParseClockSnapshot ctxNone evtClock555 1).2.clock_snapshot_rows = [] :=
  ⟨rfl, rfl, rfl⟩

/-- C8 amended: each clock of a ClockSnapshot whose trace-time conversion
succeeds contributes exactly one row (trace-time ts, int64-cast clock id,
raw clock value, builtin name or null, the fresh AddSnapshot id);
unresolvable clocks are skipped; the builtin name is non-null exactly for
ids 1..6 (REALTIME, REALTIME_COARSE, MONOTONIC, MONOTONIC_COARSE,
MONOTONIC_RAW, BOOTTIME). -/
theorem c8_amended_snapshot_rows (ctx : Ctx) (evt : ClockSnapshotMsg)
    (sid : Nat) (clocks : List ClockValue)
    (hb : buildClocks sid evt.clocks = Except.ok clocks) :
    (ParseClockSnapshot ctx evt sid).1 = Status.ok ∧
    (ParseClockSnapshot ctx evt sid).2.clock_snapshot_rows =
      ctx.clock_snapshot_rows ++
        clocks.filterMap (snapshotRowOf ctx.clock_tracker.toTraceTimeFn
          ctx.clock_tracker.nextSnapshotId) ∧
    (∀ n, (GetBuiltinClockNameOrNull n).isSome = true ↔
      (n = 1 ∨ n = 2 ∨ n = 3 ∨ n = 4 ∨ n = 5 ∨ n = 6)) := by
  refine ⟨?_, ?_, ?_⟩
  · simp only [ParseClockSnapshot, hb]
  · simp only [ParseClockSnapshot, hb]
    rw [addSnapshotRows_rows]
    split <;> rfl
  · intro n
    simp only [GetBuiltinClockNameOrNull]
    split_ifs <;> simp_all

theorem c8_amended_witness :
    (ParseClockSnapshot ctxId evtBoottime 0).1 = Status.ok ∧
    (ParseClockSnapshot ctxId evtBoottime 0).2.clock_snapshot_rows =
      [{ ts := 100, clock_id := 6, clock_value := 100,
         clock_name := some "BOOTTIME", snapshot_id := 0 }] ∧
    ((GetBuiltinClockNameOrNull 6).isSome = true ↔
      (6 = 1 ∨ 6 = 2 ∨ 6 = 3 ∨ 6 = 4 ∨ 6 = 5 ∨ 6 = 6)) := by
  have h := c8_amended_snapshot_rows ctxId evtBoottime 0
    [toClockValue 6 { clock_id := 6, timestamp := 100 }] rfl
  refine ⟨h.1, ?_, h.2.2 6⟩
  rw [h.2.1]
  rfl

theorem c9_amended_witness :
    HandleIncrementalStateCleared ctxNone pktEmpty = incrInternedErrors ctxNone ∧
    HandlePreviousPacketDropped ctxNone pktEmpty = incrInternedErrors ctxNone ∧
    ParseInternedData ctxNone pktEmpty fieldsTwo = incrInternedErrors ctxNone :=
  have h := c9_amended_missing_sequence_id_stat ctxNone pktEmpty {} fieldsTwo rfl
  ⟨h.1, h.2.1, h.2.2.2.1⟩

/-- C3: a packet reaching timestamp resolution with a present timestamp and
a nonzero effective clock id (from the packet, else the current defaults)
has the id rewritten to its global form when sequence-scoped; when the
clock tracker resolves no trace time, ParsePacket returns ok without
pushing anything to the sorter and the failure is counted in
clock_sync_failure. -/
theorem c3_clock_sync_failure_drop (ctx : Ctx) (p : TracePacket)
    (tsv cid : Nat)
    (hbl : p.bytesLeft = 0)
    (hcs : p.clock_snapshot = none) (hse : p.service_event = none)
    (hed : p.extension_descriptor = none)
    (hflag : p.sequence_flags &&& SEQ_NEEDS_INCREMENTAL_STATE = 0)
    (hft : p.frame_timeline_event = false)
    (hch1 : p.chrome_events = false) (hch2 : p.chrome_metadata = false)
    (hts : p.timestamp = some tsv)
    (hcid : effectiveClockId p
      ((stateUpdates ctx p).seqStates p.seqId).defaults = cid)
    (hcid0 : cid ≠ 0)
    (hscope : IsReservedSeqScopedClockId cid = true → p.seqId ≠ 0)
    (hfail : ctx.clock_tracker.toTraceTimeFn (convertedClockId p.seqId cid)
      (uint64ToInt64 tsv) = none) :
    ParsePacket ctx p = (Status.ok, incrClockSyncFailure (stateUpdates ctx p)) ∧
    (ParsePacket ctx p).2.sorter.pushed = ctx.sorter.pushed ∧
    (ParsePacket ctx p).2.stats.clock_sync_failure =
      (stateUpdates ctx p).stats.clock_sync_failure + 1 := by
  have hmain : ParsePacket ctx p =
      (Status.ok, incrClockSyncFailure (stateUpdates ctx p)) := by
    simp only [ParsePacket]
    rw [if_neg (by simp [hbl])]
    simp only [hcs, hse, hed]
    rw [if_neg (fun hc => hc.1 hflag), if_neg (fun hc => hc.1 hflag),
      if_neg (fun hc => by rw [hft] at hc; exact absurd hc.1 (by simp))]
    simp only [resolveTimestampAndPush, hts]
    rw [hcid]
    rw [if_neg (by simp [hch1, hch2])]
    rw [if_pos hcid0]
    rw [if_neg (fun hc => hscope hc.1 hc.2)]
    simp only [ToTraceTime, stateUpdates_clock_tracker, hfail]
  refine ⟨hmain, ?_, ?_⟩
  · rw [hmain]
    exact congrArg Sorter.pushed (stateUpdates_sorter ctx p)
  · rw [hmain]
    rfl

theorem c3_witness :
    ParsePacket ctxNone pktClock70 =
      (Status.ok, incrClockSyncFailure (stateUpdates ctxNone pktClock70)) ∧
    (ParsePacket ctxNone pktClock70).2.sorter.pushed = [] ∧
    (ParsePacket ctxNone pktClock70).2.stats.clock_sync_failure = 1 := by
  have h := c3_clock_sync_failure_drop ctxNone pktClock70 10 70 rfl rfl rfl rfl
    (by decide) rfl rfl rfl rfl rfl (by decide) (fun _ => by decide) rfl
  exact ⟨h.1, h.2.1, by rw [h.1]; rfl⟩

/-- C4: a packet that reaches timestamp resolution with no timestamp field
is pushed with timestamp max(latest_timestamp, sorter.max_timestamp());
every ParsePacket call that pushes an entry leaves latest_timestamp equal
to the max of its prior value and the pushed timestamp, and
latest_timestamp never decreases across any call. -/
theorem c4_undated_packet_frontier (ctx : Ctx) (p : TracePacket)
    (hbl : p.bytesLeft = 0)
    (hcs : p.clock_snapshot = none) (hse : p.service_event = none)
    (hed : p.extension_descriptor = none)
    (hflag : p.sequence_flags &&& SEQ_NEEDS_INCREMENTAL_STATE = 0)
    (hft : p.frame_timeline_event = false)
    (hts : p.timestamp = none)
    (hmods : ∀ fid, ctx.modulesByField fid = []) :
    ((ParsePacket ctx p).1 = Status.ok ∧
     (ParsePacket ctx p).2.sorter.pushed =
       ctx.sorter.pushed ++ [(max ctx.latest_timestamp ctx.sorter.maxTs, p)] ∧
     (ParsePacket ctx p).2.latest_timestamp =
       max ctx.latest_timestamp ctx.sorter.maxTs) ∧
    (∀ (c : Ctx) (q : TracePacket),
      ((ParsePacket c q).2.sorter.pushed = c.sorter.pushed) ∨
      (∃ t, (ParsePacket c q).2.sorter.pushed = c.sorter.pushed ++ [(t, q)] ∧
        (ParsePacket c q).2.latest_timestamp = max c.latest_timestamp t)) ∧
    (∀ (c : Ctx) (q : TracePacket),
      c.latest_timestamp ≤ (ParsePacket c q).2.latest_timestamp) := by
  have hm1 : ∀ fid, (stateUpdates ctx p).modulesByField fid = [] :=
    fun fid => (congrFun (stateUpdates_modulesByField ctx p) fid).trans (hmods fid)
  have hsuS := stateUpdates_sorter ctx p
  have hsuL := stateUpdates_latest ctx p
  have hred : ParsePacket ctx p =
      finishPacket (stateUpdates ctx p) p
        (max (stateUpdates ctx p).latest_timestamp
          (stateUpdates ctx p).sorter.maxTs) := by
    simp only [ParsePacket]
    rw [if_neg (by simp [hbl])]
    simp only [hcs, hse, hed]
    rw [if_neg (fun hc => hc.1 hflag), if_neg (fun hc => hc.1 hflag),
      if_neg (fun hc => by rw [hft] at hc; exact absurd hc.1 (by simp))]
    simp only [resolveTimestampAndPush, hts]
  refine ⟨⟨?_, ?_, ?_⟩, fun c q => ParsePacket_pushed c q,
    fun c q => ParsePacket_latest_mono c q⟩
  · rw [hred, finishPacket_eq _ _ _ hm1]
  · rw [hred, finishPacket_eq _ _ _ hm1]
    dsimp only [PushTracePacket]
    rw [hsuS, hsuL]
  · rw [hred, finishPacket_eq _ _ _ hm1]
    dsimp only [PushTracePacket]
    rw [hsuS, hsuL]
    exact max_eq_left (le_max_left _ _)

theorem c4_witness :
    (ParsePacket ctxNone pktEmpty).1 = Status.ok ∧
    (ParsePacket ctxNone pktEmpty).2.sorter.pushed = [(0, pktEmpty)] ∧
    (ParsePacket ctxNone pktEmpty).2.latest_timestamp = 0 := by
  have h := c4_undated_packet_frontier ctxNone pktEmpty rfl rfl rfl rfl
    (by decide) rfl rfl (fun _ => rfl)
  exact ⟨h.1.1, by rw [h.1.2.1]; rfl, by rw [h.1.2.2]; rfl⟩

theorem buildClocks_zero_err (l : List ClockTuple)
    (h : ∃ ct ∈ l, IsReservedSeqScopedClockId ct.clock_id = true) :
    ∃ m, buildClocks 0 l = Except.error m := by
  induction l with
  | nil =>
    rcases h with ⟨ct, hmem, _⟩
    cases hmem
  | cons a t ih =>
    rcases h with ⟨ct, hmem, hsc⟩
    rcases List.mem_cons.mp hmem with heq | hmem2
    · refine ⟨clockSnapshotSeqZeroMsg a.clock_id, ?_⟩
      rw [heq] at hsc
      simp [buildClocks, hsc]
    · by_cases ha : IsReservedSeqScopedClockId a.clock_id = true
      · refine ⟨clockSnapshotSeqZeroMsg a.clock_id, ?_⟩
        simp [buildClocks, ha]
      · rcases ih ⟨ct, hmem2, hsc⟩ with ⟨m, hm⟩
        refine ⟨m, ?_⟩
        simp [buildClocks, ha, hm]

/-- C5: a sequence-scoped clock id (64 ≤ id < 128) presented with a zero
sequence id makes ingestion fail with an error status, both when the id is
the packet's effective timestamp clock id and when it is a clock id inside
a ClockSnapshot packet. -/
theorem c5_seq_scoped_zero_sequence_error (ctx : Ctx) (p : TracePacket)
    (tsv cid : Nat)
    (hbl : p.bytesLeft = 0)
    (hcs : p.clock_snapshot = none) (hse : p.service_event = none)
    (hed : p.extension_descriptor = none)
    (hflag : p.sequence_flags &&& SEQ_NEEDS_INCREMENTAL_STATE = 0)
    (hft : p.frame_timeline_event = false)
    (hts : p.timestamp = some tsv)
    (hcid : effectiveClockId p
      ((stateUpdates ctx p).seqStates p.seqId).defaults = cid)
    (hscope : IsReservedSeqScopedClockId cid = true)
    (hsid : p.seqId = 0) :
    ParsePacket ctx p =
      (Status.err (seqScopedClockSeqZeroMsg cid), stateUpdates ctx p) ∧
    (∀ (c : Ctx) (q : TracePacket) (evt : ClockSnapshotMsg),
      q.bytesLeft = 0 → q.clock_snapshot = some evt → q.seqId = 0 →
      (∃ ct ∈ evt.clocks, IsReservedSeqScopedClockId ct.clock_id = true) →
      ∃ m, (ParsePacket c q).1 = Status.err m) := by
  have h64 : 64 ≤ cid ∧ cid < 128 := by
    simpa [IsReservedSeqScopedClockId] using hscope
  have hne0 : cid ≠ 0 := by omega
  have hne3 : cid ≠ BUILTIN_CLOCK_MONOTONIC := by
    simp only [BUILTIN_CLOCK_MONOTONIC]
    omega
  constructor
  · simp only [ParsePacket]
    rw [if_neg (by simp [hbl])]
    simp only [hcs, hse, hed]
    rw [if_neg (fun hc => hc.1 hflag), if_neg (fun hc => hc.1 hflag),
      if_neg (fun hc => by rw [hft] at hc; exact absurd hc.1 (by simp))]
    simp only [resolveTimestampAndPush, hts]
    rw [hcid]
    rw [if_neg (fun hc => hc.2.elim hne0 hne3)]
    rw [if_pos hne0]
    rw [if_pos ⟨hscope, hsid⟩]
  · intro c q evt hqbl hqcs hqsid hex
    rcases buildClocks_zero_err evt.clocks hex with ⟨m, hm⟩
    refine ⟨m, ?_⟩
    simp only [ParsePacket]
    rw [if_neg (by simp [hqbl])]
    simp only [hqcs, hqsid]
    simp only [ParseClockSnapshot, hm]

theorem c5_witness :
    ParsePacket ctxNone pktClock64NoSeq =
      (Status.err (seqScopedClockSeqZeroMsg 64), stateUpdates ctxNone pktClock64NoSeq) ∧
    ∃ m, (ParsePacket ctxNone pktSnapNoSeq).1 = Status.err m := by
  have h := c5_seq_scoped_zero_sequence_error ctxNone pktClock64NoSeq 5 64 rfl rfl
    rfl rfl (by decide) rfl rfl rfl (by decide) rfl
  exact ⟨h.1, h.2 ctxNone pktSnapNoSeq evtSeqScoped rfl rfl rfl
    ⟨{ clock_id := 64 }, by decide, by decide⟩⟩

end Perfetto
